import Mathlib

/-!
Shallow embedding of the shiftr shift-scheduling service.

Go `time.Time` values are modelled as natural numbers; `0` is the zero
value (`t.IsZero()` becomes `t = 0`), `After` is `>` and `Before` is `<`.
The database is modelled as a list of rows; a GORM query chain
(`Where` clauses conjoined, `Order("start")`, `Limit`) becomes filtering,
a stable sort on the start field, and a prefix. GORM's `Create`/`Updates`
run the `BeforeSave` hook and then write the row. Echo HTTP errors carry
their status code; an error value that is not an echo HTTP error is
rendered by the framework's default handler as status 500.
-/

namespace Shiftr

/-- Timestamps: `time.Time` as `Nat`, with `0` as the zero value. -/
abbrev Time := Nat

/-- `models.Shift` (api/models/shift.go): a work-shift row. The Go field
`End` is named `stop` here because `end` is reserved in Lean. -/
structure Shift where
  id : String
  start : Time
  stop : Time
  userID : String
deriving DecidableEq, Repr

/-- `models.User` (api/models/user.go): a user row. -/
structure User where
  id : String
  name : String
  password : String
  role : String
deriving DecidableEq, Repr

/-- Echo error model: `echo.NewHTTPError(code, msg)` or a plain Go error,
which the framework's default handler renders as status 500. -/
inductive HandlerError where
  | http (code : Nat) (msg : String)
  | generic (msg : String)
deriving DecidableEq, Repr

/-- The HTTP status a `HandlerError` is surfaced with. -/
def HandlerError.status : HandlerError → Nat
  | .http c _ => c
  | .generic _ => 500

namespace models

/-- `Shift.Validate`: start and end required, and the check
`s.Start.After(s.End)` (strictly after) rejects. -/
def Shift.Validate (s : Shift) : Except String Unit :=
  if s.start = 0 then .error "start time required"
  else if s.stop = 0 then .error "end time required"
  else if s.stop < s.start then .error "shift start time must precede shift end time"
  else .ok ()

/-- `FilterUserID`: WHERE user_id = uid, skipped when uid is empty. -/
def FilterUserID (uid : String) (s : Shift) : Bool :=
  uid == "" || s.userID == uid

/-- `FilterStart`: WHERE start >= f, skipped when f is the zero time. -/
def FilterStart (f : Time) (s : Shift) : Bool :=
  f == 0 || decide (f ≤ s.start)

/-- `FilterEnd`: WHERE end <= f, skipped when f is the zero time. -/
def FilterEnd (f : Time) (s : Shift) : Bool :=
  f == 0 || decide (s.stop ≤ f)

/-- `WithLimit`: a limit below 1 is replaced by -1, which means no limit. -/
def WithLimit (limit : Int) (l : List Shift) : List Shift :=
  if limit < 1 then l else l.take limit.toNat

/-- ORDER BY start: the ordering relation on rows. -/
def startLE (a b : Shift) : Prop := a.start ≤ b.start

instance : DecidableRel startLE :=
  fun a b => inferInstanceAs (Decidable (a.start ≤ b.start))

instance : IsTotal Shift startLE := ⟨fun a b => Nat.le_total a.start b.start⟩

instance : IsTrans Shift startLE := ⟨fun _ _ _ => Nat.le_trans⟩

/-- `ListShifts` with the four filter options: conjoined WHERE clauses,
ORDER BY start, then the limit. -/
def ListShifts (db : List Shift) (uid : String) (startF endF : Time)
    (limit : Int) : List Shift :=
  WithLimit limit
    (List.insertionSort startLE
      (db.filter (fun s => FilterUserID uid s && FilterStart startF s && FilterEnd endF s)))

/-- The message of the overlap rejection in `Shift.BeforeSave`. -/
def overlapMsg : String :=
  "shift timespan cannot intersect other shifts for the same user"

/-- The in-memory overlap test of `Shift.BeforeSave`:
`shift.End.After(s.Start) && shift.Start.Before(s.End)`. -/
def overlapTest (existing cand : Shift) : Bool :=
  decide (cand.start < existing.stop) && decide (existing.start < cand.stop)

/-- `Shift.BeforeSave`: fetch the same-user shifts passing the coarse
filters, then reject when one of them overlaps and has a different id. -/
def Shift.BeforeSave (db : List Shift) (s : Shift) : Except String Unit :=
  let shifts := ListShifts db s.userID s.start s.stop (-1)
  let overlap := shifts.any (fun sh => overlapTest sh s && sh.id != s.id)
  if overlap then .error overlapMsg else .ok ()

/-- `Shift.Create` as run by GORM: `BeforeSave` hook, then insert. The
fresh nanoid from `BeforeCreate` is assumed already set on the row. -/
def Shift.Create (db : List Shift) (s : Shift) : Except String (List Shift) :=
  match Shift.BeforeSave db s with
  | .error e => .error e
  | .ok _ =>
    .ok (db ++ [s])

/-- `Shift.Update` as run by GORM: `BeforeSave` hook, then update the
columns of the row with the matching id; no matching row is
`gorm.ErrRecordNotFound`, modelled by its message. -/
def Shift.Update (db : List Shift) (s : Shift) : Except String (List Shift) :=
  match Shift.BeforeSave db s with
  | .error e => .error e
  | .ok _ =>
    if db.any (fun r => r.id == s.id) then
      .ok (db.map (fun r => if r.id == s.id then s else r))
    else .error "record not found"

/-- `FindShiftByID`. -/
def FindShiftByID (db : List Shift) (sid : String) : Option Shift :=
  db.find? (fun s => s.id == sid)

/-- `User.Validate`. -/
def User.Validate (u : User) : Except String Unit :=
  if u.name = "" then .error "name required"
  else if u.password = "" then .error "password required"
  else if u.role = "" then .error "role required"
  else if u.role ≠ "user" ∧ u.role ≠ "admin" then .error "invalid role"
  else .ok ()

/-- `User.Prepare`: escape/trim the name and hash the password. The
html-escaping and bcrypt primitives are external, so they are taken as
parameters. -/
def User.Prepare (escape hash : String → String) (u : User) : User :=
  { u with name := escape u.name.trim, password := hash u.password }

/-- `FindUserByID`. -/
def FindUserByID (db : List User) (uid : String) : Option User :=
  db.find? (fun u => u.id == uid)

/-- `FindUserByName`. -/
def FindUserByName (db : List User) (name : String) : Option User :=
  db.find? (fun u => u.name == name)

/-- `ListUsers`: no filters, only the limit (below 1 means unlimited). -/
def ListUsers (db : List User) (limit : Int) : List User :=
  if limit < 1 then db else db.take limit.toNat

end models

namespace handlers

/-- The data bound from a `POST`/`PUT` shift body: user_id, start, end.
Unsupplied fields bind to their zero values. -/
structure ShiftBody where
  userID : String
  start : Time
  stop : Time
deriving DecidableEq, Repr

/-- The query parameters bound by the `ListShifts` handler. -/
structure ListShiftsParams where
  userID : String
  start : Time
  stop : Time
  limit : Int
deriving DecidableEq, Repr

/-- `handlers.CreateShift`: validate, constrain a `user`-role caller to
their own user id, then `Create` (which runs `BeforeSave`). `newID` is
the nanoid generated by `BeforeCreate`. A model-layer error is returned
as a plain error, surfaced as status 500. -/
def CreateShift (db : List Shift) (role uid newID : String) (data : ShiftBody) :
    Except HandlerError (Nat × Shift × List Shift) :=
  let shift : Shift := { id := "", userID := data.userID, start := data.start, stop := data.stop }
  match models.Shift.Validate shift with
  | .error e => .error (.http 400 e)
  | .ok _ =>
    if role == "user" && uid != shift.userID then .error (.http 401 "Unauthorized")
    else
      match models.Shift.Create db { shift with id := newID } with
      | .error e => .error (.generic e)
      | .ok db2 => .ok (200, { shift with id := newID }, db2)

/-- `handlers.UpdateShift`: find the row, role checks, build the change
object with zero body fields filled from the existing row — the source
fills a zero `Start` with the existing row's `End` — then `Update`. -/
def UpdateShift (db : List Shift) (role uid sid : String) (data : ShiftBody) :
    Except HandlerError (Nat × Shift × List Shift) :=
  match models.FindShiftByID db sid with
  | none => .error (.http 404 "Not Found")
  | some shift =>
    if role == "user" && shift.userID != uid then .error (.http 401 "Unauthorized")
    else if role == "user" && (data.userID != "" && data.userID != uid) then
      .error (.http 401 "Unauthorized")
    else
      let change : Shift :=
        { id := sid
          userID := if data.userID == "" then shift.userID else data.userID
          start := if data.start == 0 then shift.stop else data.start
          stop := if data.stop == 0 then shift.stop else data.stop }
      match models.Shift.Update db change with
      | .error e => .error (.generic e)
      | .ok db2 => .ok (200, change, db2)

/-- The silent narrowing in `handlers.ListShifts`: a `user`-role caller
with no user_id filter is restricted to their own id. -/
def narrowUserID (role uid : String) (p : ListShiftsParams) : ListShiftsParams :=
  if role == "user" && uid != p.userID && p.userID == "" then { p with userID := uid } else p

/-- `handlers.ListShifts`: role scoping (reject a foreign user_id, narrow
an absent one), the filter-span sanity check, then the filtered query. -/
def ListShifts (db : List Shift) (role uid : String) (p : ListShiftsParams) :
    Except HandlerError (Nat × List Shift) :=
  if role == "user" && uid != p.userID && p.userID != "" then
    .error (.http 401 "Unauthorized")
  else
    let q := narrowUserID role uid p
    if q.start ≠ 0 ∧ q.stop ≠ 0 ∧ q.stop < q.start then
      .error (.http 400 "filter span start time must precede span end time")
    else
      .ok (200, models.ListShifts db q.userID q.start q.stop q.limit)

/-- `handlers.CreateUser`: validate, duplicate-name check (conflict,
status 409), then `User.Create` (nanoid `newID`, `Prepare`, insert); the
response body has its password cleared. -/
def CreateUser (escape hash : String → String) (db : List User) (newID : String)
    (data : User) : Except HandlerError (Nat × User × List User) :=
  match models.User.Validate
      { id := "", name := data.name, password := data.password, role := data.role } with
  | .error e => .error (.http 400 e)
  | .ok _ =>
    match models.FindUserByName db data.name with
    | some _ => .error (.http 409 "user already exists")
    | none =>
      .ok (201,
        { models.User.Prepare escape hash
            { id := newID, name := data.name, password := data.password, role := data.role }
          with password := "" },
        db ++ [models.User.Prepare escape hash
          { id := newID, name := data.name, password := data.password, role := data.role }])

/-- The write step of `handlers.UpdateUser`: `User.Update` runs `Prepare`
then updates the columns of the matching row; `Take` on no row yields
record-not-found, mapped to 404. The response body has its password
cleared. -/
def UpdateUser.write (escape hash : String → String) (db : List User) (change : User) :
    Except HandlerError (Nat × User × List User) :=
  if db.any (fun r => r.id == (models.User.Prepare escape hash change).id) then
    .ok (200, { models.User.Prepare escape hash change with password := "" },
      db.map (fun r => if r.id == (models.User.Prepare escape hash change).id
        then models.User.Prepare escape hash change else r))
  else .error (.http 404 "Not Found")

/-- `handlers.UpdateUser`: validate, find the caller's row, role
constraints, duplicate-name check — a name match is rejected with
`echo.ErrForbidden` (status 403) — then the write step. -/
def UpdateUser (escape hash : String → String) (db : List User) (role uid : String)
    (data : User) : Except HandlerError (Nat × User × List User) :=
  match models.User.Validate
      { id := uid, name := data.name, password := data.password, role := data.role } with
  | .error e => .error (.http 400 e)
  | .ok _ =>
    match models.FindUserByID db uid with
    | none => .error (.http 404 "Not Found")
    | some user =>
      if role == "user" && user.id != uid then .error (.http 401 "Unauthorized")
      else if role == "user" && data.role != user.role then .error (.http 401 "Unauthorized")
      else if data.name != user.name then
        match models.FindUserByName db data.name with
        | some check =>
          if check.name ≠ "" then .error (.http 403 "Forbidden")
          else UpdateUser.write escape hash db
            { id := uid, name := data.name, password := data.password, role := data.role }
        | none => UpdateUser.write escape hash db
            { id := uid, name := data.name, password := data.password, role := data.role }
      else UpdateUser.write escape hash db
        { id := uid, name := data.name, password := data.password, role := data.role }

/-- `handlers.ListUsers`: list with the limit, clearing each password
before serialization. -/
def ListUsers (db : List User) (limit : Int) : Except HandlerError (Nat × List User) :=
  .ok (200, (models.ListUsers db limit).map (fun u => { u with password := "" }))

/-- `handlers.GetUserByID`: find the row, constrain a `user`-role caller
to their own id, clear the password, respond. -/
def GetUserByID (db : List User) (role uid id : String) :
    Except HandlerError (Nat × User) :=
  match models.FindUserByID db id with
  | none => .error (.http 404 "Not Found")
  | some user =>
    if role == "user" && uid != user.id then .error (.http 401 "Unauthorized")
    else .ok (200, { user with password := "" })

end handlers

/-- The candidate set `BeforeSave` applies the in-memory overlap test to:
the listing query with the user, start and end filters and no limit. -/
def preFilterSet (db : List Shift) (c : Shift) : List Shift :=
  models.ListShifts db c.userID c.start c.stop (-1)

/-- The pre-filter window as the spec words it: same-user shifts with
start ≥ candidate.start OR end ≤ candidate.end. Stated only to compare
with `preFilterSet`, which conjoins the two range conditions. -/
def specOrPreFilter (db : List Shift) (c : Shift) : List Shift :=
  db.filter (fun s =>
    s.userID == c.userID && (decide (c.start ≤ s.start) || decide (s.stop ≤ c.stop)))

end Shiftr

deriving instance DecidableEq for Except

namespace Shiftr

/-- Stored fixture: user A holds the shift [8,17). -/
def shiftA : Shift := { id := "aaaaaaaaaa", start := 8, stop := 17, userID := "A" }

/-- Fixture: user A holds the short shift [9,10), contained in [8,17). -/
def shiftInner : Shift := { id := "cccccccccc", start := 9, stop := 10, userID := "A" }

/-- Fixture: the candidate [16,20) for user A, which overlaps [8,17). -/
def candOverlap : Shift := { id := "bbbbbbbbbb", start := 16, stop := 20, userID := "A" }

/-- Fixture: the candidate [17,20) for user A, touching [8,17). -/
def shiftTouch : Shift := { id := "eeeeeeeeee", start := 17, stop := 20, userID := "A" }

theorem withLimit_subset {limit : Int} {l : List Shift} {s : Shift}
    (h : s ∈ models.WithLimit limit l) : s ∈ l := by
  unfold models.WithLimit at h
  split at h
  · exact h
  · exact List.mem_of_mem_take h

theorem mem_listShifts {db : List Shift} {uid : String} {sF eF : Time}
    {limit : Int} {s : Shift} (h : s ∈ models.ListShifts db uid sF eF limit) :
    s ∈ db ∧
      (models.FilterUserID uid s && models.FilterStart sF s && models.FilterEnd eF s) = true := by
  have h2 := (List.perm_insertionSort models.startLE _).mem_iff.mp (withLimit_subset h)
  exact ⟨(List.mem_filter.mp h2).1, (List.mem_filter.mp h2).2⟩

theorem mem_listShifts_iff_noLimit {db : List Shift} {uid : String} {sF eF : Time}
    {s : Shift} :
    s ∈ models.ListShifts db uid sF eF (-1) ↔
      s ∈ db ∧
        (models.FilterUserID uid s && models.FilterStart sF s && models.FilterEnd eF s) = true := by
  constructor
  · exact mem_listShifts
  · intro hs
    show s ∈ models.WithLimit (-1) _
    have hlim : models.WithLimit (-1)
        (List.insertionSort models.startLE
          (db.filter (fun t => models.FilterUserID uid t &&
            models.FilterStart sF t && models.FilterEnd eF t))) =
        List.insertionSort models.startLE
          (db.filter (fun t => models.FilterUserID uid t &&
            models.FilterStart sF t && models.FilterEnd eF t)) := rfl
    rw [hlim, (List.perm_insertionSort models.startLE _).mem_iff, List.mem_filter]
    exact hs

theorem filterUserID_eq_true {uid : String} {s : Shift} (h : uid ≠ "") :
    models.FilterUserID uid s = true ↔ s.userID = uid := by
  simp [models.FilterUserID, h]

theorem filterStart_eq_true {f : Time} {s : Shift} (h : f ≠ 0) :
    models.FilterStart f s = true ↔ f ≤ s.start := by
  simp [models.FilterStart, h]

theorem filterEnd_eq_true {f : Time} {s : Shift} (h : f ≠ 0) :
    models.FilterEnd f s = true ↔ s.stop ≤ f := by
  simp [models.FilterEnd, h]

/-- C1: the sequential non-overlap invariant fails on the code. With user
A holding the stored shift [8,17), creating [16,20) for A is accepted —
the conjoined pre-filter (start ≥ 16 AND end ≤ 20) misses the stored
row — and the resulting state holds two distinct same-user shifts whose
intervals satisfy the overlap test. -/
theorem createShift_allows_partial_overlap :
    handlers.CreateShift [shiftA] "admin" "adm" "bbbbbbbbbb" ⟨"A", 16, 20⟩ =
      Except.ok (200, candOverlap, [shiftA, candOverlap]) ∧
    candOverlap.userID = shiftA.userID ∧ candOverlap.id ≠ shiftA.id ∧
    shiftA.start < candOverlap.stop ∧ candOverlap.start < shiftA.stop := by decide

/-- C2 counterexample: with [8,17) stored for user A and candidate
[16,20) for A, the stored shift overlaps the candidate and lies in the
spec's OR window, yet the candidate set the code builds is empty, so the
candidate set is not the OR window and misses an overlapping same-user
shift. -/
theorem preFilter_is_not_or_window :
    preFilterSet [shiftA] candOverlap = [] ∧
    specOrPreFilter [shiftA] candOverlap = [shiftA] ∧
    shiftA.userID = candOverlap.userID ∧
    candOverlap.start < shiftA.stop ∧ shiftA.start < candOverlap.stop ∧
    shiftA ∉ preFilterSet [shiftA] candOverlap := by decide

/-- C2 (amended): for a candidate with non-empty user and non-zero
start/end, the candidate set of the overlap validator is exactly the
stored same-user shifts whose interval is contained in the candidate's
window — the two range filters are conjoined, not disjoined. -/
theorem preFilterSet_mem_iff (db : List Shift) (c : Shift)
    (hu : c.userID ≠ "") (hs : c.start ≠ 0) (he : c.stop ≠ 0) (s : Shift) :
    s ∈ preFilterSet db c ↔
      s ∈ db ∧ s.userID = c.userID ∧ c.start ≤ s.start ∧ s.stop ≤ c.stop := by
  rw [preFilterSet, mem_listShifts_iff_noLimit]
  simp [Bool.and_eq_true, filterUserID_eq_true hu, filterStart_eq_true hs,
    filterEnd_eq_true he, and_assoc]

/-- Fixture: the candidate [8,17) for user A with a fresh id, containing
[9,10). -/
def candWide : Shift := { id := "dddddddddd", start := 8, stop := 17, userID := "A" }

theorem preFilterSet_mem_iff_witness :
    shiftInner ∈ preFilterSet [shiftInner] candWide :=
  (preFilterSet_mem_iff [shiftInner] candWide (by decide) (by decide) (by decide)
    shiftInner).mpr (by decide)

/-- C5: validation does not reject a shift whose start equals its end —
the source checks `s.Start.After(s.End)`, which is strict — so a
zero-length shift with equal non-zero start and end passes `Validate`,
although its own error message demands that start precede end. -/
theorem validate_accepts_zero_length_shift :
    models.Shift.Validate { id := "zzzzzzzzzz", start := 5, stop := 5, userID := "A" } =
      Except.ok () := by decide

/-- C3: `BeforeSave` rejects exactly when some shift of the pre-filtered
candidate set satisfies `existing.end > candidate.start &&
existing.start < candidate.end` with a different id; and whenever every
other-id candidate merely touches or is disjoint from the candidate's
interval — in particular for touching intervals and for the candidate's
own row under an update — the save is accepted. -/
theorem beforeSave_rejects_iff (db : List Shift) (c : Shift) :
    (models.Shift.BeforeSave db c = Except.error models.overlapMsg ↔
      ∃ sh ∈ preFilterSet db c, c.start < sh.stop ∧ sh.start < c.stop ∧ sh.id ≠ c.id) ∧
    ((∀ sh ∈ preFilterSet db c, sh.id ≠ c.id → sh.stop ≤ c.start ∨ c.stop ≤ sh.start) →
      models.Shift.BeforeSave db c = Except.ok ()) := by
  have hbs : models.Shift.BeforeSave db c =
      if (preFilterSet db c).any (fun sh => models.overlapTest sh c && sh.id != c.id)
        then Except.error models.overlapMsg else Except.ok () := rfl
  have hiff : (preFilterSet db c).any (fun sh => models.overlapTest sh c && sh.id != c.id) = true ↔
      ∃ sh ∈ preFilterSet db c, c.start < sh.stop ∧ sh.start < c.stop ∧ sh.id ≠ c.id := by
    rw [List.any_eq_true]
    refine exists_congr fun sh => and_congr_right fun _ => ?_
    simp [models.overlapTest, and_assoc]
  constructor
  · rw [hbs]
    cases hb : (preFilterSet db c).any (fun sh => models.overlapTest sh c && sh.id != c.id) with
    | false => simp [hb, ← hiff]
    | true => simp [hb, ← hiff]
  · intro hall
    rw [hbs]
    have hfalse : (preFilterSet db c).any
        (fun sh => models.overlapTest sh c && sh.id != c.id) = false := by
      rw [List.any_eq_false]
      intro sh hm hp
      simp only [models.overlapTest, Bool.and_eq_true, decide_eq_true_eq, bne_iff_ne] at hp
      obtain ⟨⟨h1, h2⟩, h3⟩ := hp
      rcases hall sh hm h3 with h | h
      · exact Nat.lt_irrefl _ (Nat.lt_of_lt_of_le h1 h)
      · exact Nat.lt_irrefl _ (Nat.lt_of_lt_of_le h2 h)
    simp [hfalse]

theorem beforeSave_rejects_iff_witness :
    models.Shift.BeforeSave [shiftA] shiftTouch = Except.ok () :=
  (beforeSave_rejects_iff [shiftA] shiftTouch).2 (by decide)

/-- C4: on update, a zero-valued `start` in the body is not preserved
from the existing record — the handler copies the existing record's End
into Start. On the stored shift [8,17), a PUT body with zero start and
end 20 yields a stored shift [17,20), not [8,20). -/
theorem updateShift_zero_start_takes_existing_end :
    handlers.UpdateShift [shiftA] "admin" "adm" "aaaaaaaaaa" ⟨"", 0, 20⟩ =
      Except.ok (200, { id := "aaaaaaaaaa", start := 17, stop := 20, userID := "A" },
        [{ id := "aaaaaaaaaa", start := 17, stop := 20, userID := "A" }]) ∧
    shiftA.start = 8 ∧ (8 : Nat) ≠ 17 := by decide

/-- C6 counterexample: an overlap rejection on shift create is returned
as a plain error, which the framework's default handler surfaces as
status 500 — not as 409 or 400. -/
theorem overlap_rejection_surfaced_as_500 :
    handlers.CreateShift [shiftInner] "admin" "adm" "dddddddddd" ⟨"A", 8, 17⟩ =
      Except.error (.generic models.overlapMsg) ∧
    HandlerError.status (.generic models.overlapMsg) = 500 ∧
    (500 : Nat) ≠ 409 ∧ (500 : Nat) ≠ 400 := by decide

/-- C6 (amended): a duplicate name on user create is surfaced as 409; a
duplicate name on user update is surfaced as 403 (Forbidden); an overlap
rejection on shift create or update is returned as a plain error and
surfaced with status 500. -/
theorem conflict_rejection_statuses (escape hash : String → String)
    (dbU : List User) (dbS : List Shift) (newID role uid sid : String)
    (dataU : User) (dataS : handlers.ShiftBody) (userRow checkRow : User)
    (shiftRow : Shift) (e1 e2 : String) :
    (models.User.Validate
        { id := "", name := dataU.name, password := dataU.password, role := dataU.role } =
        Except.ok () →
     models.FindUserByName dbU dataU.name = some checkRow →
     handlers.CreateUser escape hash dbU newID dataU =
       Except.error (.http 409 "user already exists")) ∧
    (models.User.Validate
        { id := uid, name := dataU.name, password := dataU.password, role := dataU.role } =
        Except.ok () →
     models.FindUserByID dbU uid = some userRow →
     (role = "user" → userRow.id = uid ∧ dataU.role = userRow.role) →
     dataU.name ≠ userRow.name →
     models.FindUserByName dbU dataU.name = some checkRow →
     checkRow.name ≠ "" →
     handlers.UpdateUser escape hash dbU role uid dataU =
       Except.error (.http 403 "Forbidden")) ∧
    (models.Shift.Validate
        { id := "", userID := dataS.userID, start := dataS.start, stop := dataS.stop } =
        Except.ok () →
     (role = "user" → uid = dataS.userID) →
     models.Shift.BeforeSave dbS
        { id := newID, userID := dataS.userID, start := dataS.start, stop := dataS.stop } =
        Except.error e1 →
     handlers.CreateShift dbS role uid newID dataS = Except.error (.generic e1) ∧
       (HandlerError.generic e1).status = 500) ∧
    (models.FindShiftByID dbS sid = some shiftRow →
     (role = "user" → shiftRow.userID = uid ∧ (dataS.userID = "" ∨ dataS.userID = uid)) →
     models.Shift.BeforeSave dbS
        { id := sid
          userID := if dataS.userID == "" then shiftRow.userID else dataS.userID
          start := if dataS.start == 0 then shiftRow.stop else dataS.start
          stop := if dataS.stop == 0 then shiftRow.stop else dataS.stop } =
        Except.error e2 →
     handlers.UpdateShift dbS role uid sid dataS = Except.error (.generic e2) ∧
       (HandlerError.generic e2).status = 500) := by
  refine ⟨?_, ?_, ?_, ?_⟩
  · intro hv hf
    simp [handlers.CreateUser, hv, hf]
  · intro hv hfid hrole hnm hfn hk
    by_cases hr : role = "user"
    · obtain ⟨hid, hrl⟩ := hrole hr
      have hv2 := hv
      rw [hrl] at hv2
      simp [handlers.UpdateUser, hv, hv2, hfid, hr, hid, hrl, hnm, hfn, hk]
    · simp [handlers.UpdateUser, hv, hfid, hr, hnm, hfn, hk]
  · intro hv hrole hbs
    refine ⟨?_, rfl⟩
    by_cases hr : role = "user"
    · simp [handlers.CreateShift, models.Shift.Create, hv, hbs, hr, hrole hr]
    · simp [handlers.CreateShift, models.Shift.Create, hv, hbs, hr]
  · intro hfid hrole hbs
    refine ⟨?_, rfl⟩
    by_cases hr : role = "user"
    · obtain ⟨hown, hdu⟩ := hrole hr
      rcases hdu with hdu | hdu
      · simp [hdu, hown] at hbs
        simp [handlers.UpdateShift, models.Shift.Update, hfid, hr, hown, hdu, hbs]
      · simp [hdu, hown] at hbs
        simp [handlers.UpdateShift, models.Shift.Update, hfid, hr, hown, hdu, hbs]
    · simp at hbs
      simp [handlers.UpdateShift, models.Shift.Update, hfid, hr, hbs]

/-- Fixture: a stored user named alice. -/
def userAlice : User := { id := "u1u1u1u1", name := "alice", password := "hhhh", role := "user" }

/-- Fixture: a stored admin named bob. -/
def userBob : User := { id := "u2u2u2u2", name := "bob", password := "gggg", role := "admin" }

/-- Fixture: user A holds [1,2). -/
def shiftS1 : Shift := { id := "s1s1s1s1s1", start := 1, stop := 2, userID := "A" }

/-- Fixture: user A holds [8,9). -/
def shiftS2 : Shift := { id := "s2s2s2s2s2", start := 8, stop := 9, userID := "A" }

theorem conflict_rejection_statuses_witness :
    handlers.CreateUser id id [userAlice] "u3u3u3u3"
        { id := "", name := "alice", password := "pw", role := "user" } =
      Except.error (.http 409 "user already exists") ∧
    handlers.UpdateUser id id [userAlice, userBob] "admin" "u2u2u2u2"
        { id := "", name := "alice", password := "pw", role := "admin" } =
      Except.error (.http 403 "Forbidden") ∧
    handlers.CreateShift [shiftInner] "admin" "adm" "ffffffffff" ⟨"A", 8, 17⟩ =
      Except.error (.generic models.overlapMsg) ∧
    handlers.UpdateShift [shiftS1, shiftS2] "admin" "adm" "s1s1s1s1s1" ⟨"", 5, 10⟩ =
      Except.error (.generic models.overlapMsg) :=
  ⟨(conflict_rejection_statuses id id [userAlice] [] "u3u3u3u3" "admin" "x" "y"
      { id := "", name := "alice", password := "pw", role := "user" } ⟨"", 0, 0⟩
      userAlice userAlice shiftA "" "").1 (by decide) (by decide),
   (conflict_rejection_statuses id id [userAlice, userBob] [] "zzzz" "admin" "u2u2u2u2" "y"
      { id := "", name := "alice", password := "pw", role := "admin" } ⟨"", 0, 0⟩
      userBob userAlice shiftA "" "").2.1 (by decide) (by decide) (by decide) (by decide)
      (by decide) (by decide),
   ((conflict_rejection_statuses id id [] [shiftInner] "ffffffffff" "admin" "adm" "y"
      userAlice ⟨"A", 8, 17⟩ userAlice userAlice shiftA models.overlapMsg "").2.2.1
      (by decide) (by decide) (by decide)).1,
   ((conflict_rejection_statuses id id [] [shiftS1, shiftS2] "zzzz" "admin" "adm" "s1s1s1s1s1"
      userAlice ⟨"", 5, 10⟩ userAlice userAlice shiftS1 "" models.overlapMsg).2.2.2
      (by decide) (by decide) (by decide)).1⟩

/-- C7: listing returns shifts matching all present filters (an empty
user filter does not restrict, a non-zero start filter keeps starts at
or after it, a non-zero end filter keeps ends at or before it), ordered
by ascending start; a limit at most 0 returns every matching row, a
positive limit N at most N rows. -/
theorem listShifts_contract (db : List Shift) (uid : String) (sF eF : Time) (limit : Int) :
    List.Sorted models.startLE (models.ListShifts db uid sF eF limit) ∧
    (∀ s ∈ models.ListShifts db uid sF eF limit,
      s ∈ db ∧ (uid ≠ "" → s.userID = uid) ∧ (sF ≠ 0 → sF ≤ s.start) ∧
        (eF ≠ 0 → s.stop ≤ eF)) ∧
    (limit ≤ 0 → (models.ListShifts db uid sF eF limit).Perm
      (db.filter fun s =>
        models.FilterUserID uid s && models.FilterStart sF s && models.FilterEnd eF s)) ∧
    (0 < limit → (models.ListShifts db uid sF eF limit).length ≤ limit.toNat) := by
  refine ⟨?_, ?_, ?_, ?_⟩
  · unfold models.ListShifts models.WithLimit
    split
    · exact List.sorted_insertionSort _ _
    · exact List.Pairwise.sublist (List.take_sublist _ _) (List.sorted_insertionSort _ _)
  · intro s hs
    obtain ⟨hdb, hf⟩ := mem_listShifts hs
    rw [Bool.and_eq_true, Bool.and_eq_true] at hf
    refine ⟨hdb, fun hu => ?_, fun h0 => ?_, fun h0 => ?_⟩
    · exact (filterUserID_eq_true hu).mp hf.1.1
    · exact (filterStart_eq_true h0).mp hf.1.2
    · exact (filterEnd_eq_true h0).mp hf.2
  · intro hl
    unfold models.ListShifts models.WithLimit
    rw [if_pos (by omega)]
    exact List.perm_insertionSort _ _
  · intro hl
    unfold models.ListShifts models.WithLimit
    rw [if_neg (by omega)]
    exact List.length_take_le _ _

theorem listShifts_contract_witness :
    (models.ListShifts [shiftA, shiftInner] "A" 0 0 0).Perm
      ([shiftA, shiftInner].filter fun s =>
        models.FilterUserID "A" s && models.FilterStart 0 s && models.FilterEnd 0 s) :=
  (listShifts_contract [shiftA, shiftInner] "A" 0 0 0).2.2.1 (by decide)

theorem narrowUserID_fields (role uid : String) (p : handlers.ListShiftsParams) :
    (handlers.narrowUserID role uid p).start = p.start ∧
    (handlers.narrowUserID role uid p).stop = p.stop ∧
    (handlers.narrowUserID role uid p).limit = p.limit := by
  unfold handlers.narrowUserID
  split <;> simp

theorem listShifts_handler_eval (db : List Shift) (role uid : String)
    (p : handlers.ListShiftsParams)
    (hpass : ¬(role = "user" ∧ uid ≠ p.userID ∧ p.userID ≠ "")) :
    handlers.ListShifts db role uid p =
      if p.start ≠ 0 ∧ p.stop ≠ 0 ∧ p.stop < p.start then
        Except.error (.http 400 "filter span start time must precede span end time")
      else
        Except.ok (200, models.ListShifts db (handlers.narrowUserID role uid p).userID
          p.start p.stop p.limit) := by
  have hc : (role == "user" && uid != p.userID && p.userID != "") = false := by
    by_cases h1 : role = "user"
    · by_cases h2 : uid = p.userID
      · simp [h2]
      · by_cases h3 : p.userID = ""
        · simp [h3]
        · exact absurd ⟨h1, h2, h3⟩ hpass
    · simp [h1]
  obtain ⟨hst, hsp, hlim⟩ := narrowUserID_fields role uid p
  unfold handlers.ListShifts
  rw [hc]
  simp only [Bool.false_eq_true, if_false, hst, hsp, hlim]

/-- C8: a `user`-role caller with a non-empty id listing without a
user_id filter is narrowed to their own id, so every returned shift is
theirs; a foreign user_id is rejected with 401; their own user_id
behaves exactly like the narrowed case; an admin caller is neither
narrowed nor rejected this way. -/
theorem listShifts_role_scoped (db : List Shift) (uid : String)
    (p : handlers.ListShiftsParams) (huid : uid ≠ "") :
    (p.userID = "" → ∀ n r, handlers.ListShifts db "user" uid p = Except.ok (n, r) →
      ∀ s ∈ r, s.userID = uid) ∧
    (p.userID ≠ "" → p.userID ≠ uid →
      handlers.ListShifts db "user" uid p = Except.error (.http 401 "Unauthorized")) ∧
    (p.userID = uid →
      handlers.ListShifts db "user" uid p =
        handlers.ListShifts db "user" uid { p with userID := "" }) ∧
    (handlers.ListShifts db "admin" uid p =
      if p.start ≠ 0 ∧ p.stop ≠ 0 ∧ p.stop < p.start then
        Except.error (.http 400 "filter span start time must precede span end time")
      else Except.ok (200, models.ListShifts db p.userID p.start p.stop p.limit)) := by
  refine ⟨?_, ?_, ?_, ?_⟩
  · intro hp n r hok s hs
    have hq : (handlers.narrowUserID "user" uid p).userID = uid := by
      simp [handlers.narrowUserID, hp, huid]
    rw [listShifts_handler_eval db "user" uid p (by rintro ⟨-, -, h⟩; exact h hp), hq] at hok
    split at hok
    · exact absurd hok (by simp)
    · simp only [Except.ok.injEq, Prod.mk.injEq] at hok
      obtain ⟨-, rfl⟩ := hok
      obtain ⟨-, hf⟩ := mem_listShifts hs
      rw [Bool.and_eq_true, Bool.and_eq_true] at hf
      exact (filterUserID_eq_true huid).mp hf.1.1
  · intro h1 h2
    unfold handlers.ListShifts
    simp [h1, Ne.symm h2]
  · intro hpu
    have hq1 : (handlers.narrowUserID "user" uid p).userID = uid := by
      simp [handlers.narrowUserID, hpu]
    have hq2 : (handlers.narrowUserID "user" uid { p with userID := "" }).userID = uid := by
      simp [handlers.narrowUserID, huid]
    rw [listShifts_handler_eval db "user" uid p (by rintro ⟨-, h, -⟩; exact h hpu.symm),
      listShifts_handler_eval db "user" uid { p with userID := "" }
        (by rintro ⟨-, -, h⟩; exact h rfl),
      hq1, hq2]
  · have hq : (handlers.narrowUserID "admin" uid p).userID = p.userID := by
      simp [handlers.narrowUserID]
    rw [listShifts_handler_eval db "admin" uid p (by rintro ⟨h, -⟩; exact absurd h (by decide)),
      hq]

theorem listShifts_role_scoped_witness :
    shiftA.userID = "A" :=
  (listShifts_role_scoped [shiftA] "A" ⟨"", 0, 0, 0⟩ (by decide)).1 rfl 200 [shiftA]
    (by decide) shiftA (by decide)

/-- C10: when both span filters are non-zero and the start filter is
strictly after the end filter, listing fails with 400 and the stated
message before any query runs; when at least one of them is zero, no
span check applies and the filtered query is returned. Stated for any
caller the role scoping does not reject. -/
theorem listShifts_span_check (db : List Shift) (role uid : String)
    (p : handlers.ListShiftsParams)
    (hpass : ¬(role = "user" ∧ uid ≠ p.userID ∧ p.userID ≠ "")) :
    (p.start ≠ 0 → p.stop ≠ 0 → p.stop < p.start →
      handlers.ListShifts db role uid p =
        Except.error (.http 400 "filter span start time must precede span end time")) ∧
    ((p.start = 0 ∨ p.stop = 0) →
      handlers.ListShifts db role uid p =
        Except.ok (200, models.ListShifts db (handlers.narrowUserID role uid p).userID
          p.start p.stop p.limit)) := by
  constructor
  · intro h1 h2 h3
    rw [listShifts_handler_eval db role uid p hpass, if_pos ⟨h1, h2, h3⟩]
  · intro h0
    rw [listShifts_handler_eval db role uid p hpass, if_neg]
    rintro ⟨a, b, -⟩
    rcases h0 with h | h
    · exact a h
    · exact b h

theorem listShifts_span_check_witness :
    handlers.ListShifts [] "admin" "adm" ⟨"", 5, 3, 0⟩ =
      Except.error (.http 400 "filter span start time must precede span end time") :=
  (listShifts_span_check [] "admin" "adm" ⟨"", 5, 3, 0⟩ (by decide)).1
    (by decide) (by decide) (by decide)

theorem updateUser_write_password {escape hash : String → String} {db : List User}
    {change : User} {n : Nat} {u : User} {db2 : List User}
    (hok : handlers.UpdateUser.write escape hash db change = Except.ok (n, u, db2)) :
    u.password = "" := by
  unfold handlers.UpdateUser.write at hok
  split at hok
  · simp only [Except.ok.injEq, Prod.mk.injEq] at hok
    obtain ⟨-, h, -⟩ := hok
    rw [← h]
  · exact absurd hok (by simp)

/-- C9: every user object in a successful response of the user
endpoints — create, update, list, get-by-id — has an empty password
field, so the stored password hash never reaches a response body. -/
theorem user_responses_clear_password (escape hash : String → String)
    (db : List User) (newID role uid rid : String) (data : User) (limit : Int) :
    (∀ n u db2, handlers.CreateUser escape hash db newID data = Except.ok (n, u, db2) →
      u.password = "") ∧
    (∀ n u db2, handlers.UpdateUser escape hash db role uid data = Except.ok (n, u, db2) →
      u.password = "") ∧
    (∀ n l, handlers.ListUsers db limit = Except.ok (n, l) → ∀ u ∈ l, u.password = "") ∧
    (∀ n u, handlers.GetUserByID db role uid rid = Except.ok (n, u) → u.password = "") := by
  refine ⟨?_, ?_, ?_, ?_⟩
  · intro n u db2 hok
    unfold handlers.CreateUser at hok
    split at hok
    · exact absurd hok (by simp)
    · split at hok
      · exact absurd hok (by simp)
      · simp only [Except.ok.injEq, Prod.mk.injEq] at hok
        obtain ⟨-, h, -⟩ := hok
        rw [← h]
  · intro n u db2 hok
    unfold handlers.UpdateUser at hok
    repeat' split at hok
    all_goals first
      | exact absurd hok (by simp)
      | exact updateUser_write_password hok
  · intro n l hok u hu
    unfold handlers.ListUsers at hok
    simp only [Except.ok.injEq, Prod.mk.injEq] at hok
    obtain ⟨-, rfl⟩ := hok
    obtain ⟨x, -, hx⟩ := List.mem_map.mp hu
    rw [← hx]
  · intro n u hok
    unfold handlers.GetUserByID at hok
    split at hok
    · exact absurd hok (by simp)
    · split at hok
      · exact absurd hok (by simp)
      · simp only [Except.ok.injEq, Prod.mk.injEq] at hok
        obtain ⟨-, h⟩ := hok
        rw [← h]

theorem user_responses_clear_password_witness :
    ({ userAlice with password := "" } : User).password = "" :=
  (user_responses_clear_password id id [userAlice] "zzzz" "admin" "x" "u1u1u1u1"
    userAlice 0).2.2.2 200 { userAlice with password := "" } (by decide)

end Shiftr
